import Mathlib

/-!
Verification development for the signal-fusion / prediction-tracking core:
`src/config.py`, `src/analysis/prediction_engine.py`,
`src/analysis/technical_analysis.py` and `src/history_tracker.py`.

Python floats are modelled as exact rationals (`ℚ`); Python's `round`
(banker's rounding, round half to even) is modelled by `pyRound` below.
Python dicts with known key sets are modelled as structures whose `Option`
fields stand for possibly-missing keys; `dict.get(k, d)` becomes
`Option.getD`.
-/

/-- Round half to even of a rational to an integer, the tie-breaking rule of
Python's built-in `round`. -/
def roundHalfEven (q : ℚ) : ℤ :=
  if q - ⌊q⌋ < 1/2 then ⌊q⌋
  else if 1/2 < q - ⌊q⌋ then ⌊q⌋ + 1
  else if ⌊q⌋ % 2 = 0 then ⌊q⌋ else ⌊q⌋ + 1

/-- Model of Python's `round(q, nd)` on exact rationals. -/
def pyRound (nd : ℕ) (q : ℚ) : ℚ :=
  (roundHalfEven (q * 10 ^ nd) : ℚ) / 10 ^ nd

/-! ## Configuration (`src/config.py`) -/

/-- Embedding of `SIGNAL_WEIGHTS` from `src/config.py` (lines 157-164), in
dict insertion order. Note that the table has six entries: there is no
`whales` entry. -/
def SIGNAL_WEIGHTS : List (String × ℚ) :=
  [("technical", 30/100),
   ("onchain", 20/100),
   ("news", 18/100),
   ("social", 15/100),
   ("fear_greed", 10/100),
   ("youtube", 7/100)]

/-- Model of `SIGNAL_WEIGHTS.get(key, 0)`. -/
def weightOf (key : String) : ℚ := ((SIGNAL_WEIGHTS.lookup key).getD 0)

def CONFIDENCE_HIGH : ℚ := 75

def CONFIDENCE_MEDIUM : ℚ := 50

def CONFIDENCE_LOW : ℚ := 30

/-! ## Prediction engine (`src/analysis/prediction_engine.py`)

The six input dicts of `generate_prediction` are modelled as structures;
an `Option` field models a key that may be absent (or whose value may be
Python `None`, where the code distinguishes neither). -/

/-- Input slice of the technical-analysis result used by the engine:
`technical_result.get("technical_score")`. -/
structure TechnicalResult where
  technical_score : Option ℚ := none
deriving DecidableEq

/-- One sentiment entry of the AI analysis dict: `.get("sentiment_score")`. -/
structure SentimentEntry where
  sentiment_score : Option ℚ := none
deriving DecidableEq

/-- The `ai_analysis` dict: `news_sentiment`, `social_sentiment`,
`youtube_sentiment` sub-dicts, each possibly absent. -/
structure AiAnalysis where
  news_sentiment : Option SentimentEntry := none
  social_sentiment : Option SentimentEntry := none
  youtube_sentiment : Option SentimentEntry := none
deriving DecidableEq

/-- The `fear_greed_data` dict. `current_value` models
`fg_data.get("current_value", 50)`: the outer `Option` is key absence
(default 50), the inner one is an explicit `None` value. -/
structure FearGreedData where
  current_value : Option (Option ℚ) := none
deriving DecidableEq

/-- The `dex` sub-dict of `onchain_data`. -/
structure DexData where
  buy_pressure : Option String := none
deriving DecidableEq

/-- The `tvl` sub-dict of `onchain_data`. -/
structure TvlData where
  tvl_trend : Option String := none
  tvl_change_7d_pct : Option ℚ := none
deriving DecidableEq

/-- The `onchain_data` dict. -/
structure OnchainData where
  dex : Option DexData := none
  tvl : Option TvlData := none
deriving DecidableEq

/-- The `whale_data` dict. -/
structure WhaleData where
  flow_direction : Option String := none
  net_flow_sol : Option ℚ := none
deriving DecidableEq

/-- The `coingecko` sub-dict of `price_data`. -/
structure CoingeckoData where
  price_usd : Option ℚ := none
  price_change_24h_pct : Option ℚ := none
deriving DecidableEq

/-- The `binance_ticker` sub-dict of `price_data`. -/
structure BinanceTicker where
  last_price : Option ℚ := none
deriving DecidableEq

/-- The `price_data` dict. -/
structure PriceData where
  coingecko : Option CoingeckoData := none
  binance_ticker : Option BinanceTicker := none
deriving DecidableEq

/-- Embedding of `_normalize_score`: `None` maps to `0.0`, any other value
is clamped to `[-1, 1]`. -/
def normalize_score (score : Option ℚ) : ℚ :=
  match score with
  | none => 0
  | some s => max (-1) (min 1 s)

/-- Embedding of `_fear_greed_to_score`. -/
def fear_greed_to_score (fg : FearGreedData) : ℚ :=
  match fg.current_value.getD (some 50) with
  | none => 0
  | some value => pyRound 3 ((50 - value) / 50)

/-- Embedding of the `pressure_map` dict in `_onchain_to_score`. -/
def pressureMap : List (String × ℚ) :=
  [("strong_buy", 8/10), ("buy", 4/10), ("neutral", 0),
   ("sell", -(4/10)), ("strong_sell", -(8/10))]

/-- Embedding of the `trend_map` dict in `_onchain_to_score`. -/
def trendMap : List (String × ℚ) :=
  [("growing", 5/10), ("stable", 0), ("declining", -(5/10))]

/-- Embedding of `_onchain_to_score`: mean of the three sub-scores,
rounded to 3 decimals. -/
def onchain_to_score (d : OnchainData) : ℚ :=
  let dex := d.dex.getD {}
  let tvl := d.tvl.getD {}
  let s1 := ((pressureMap.lookup (dex.buy_pressure.getD "neutral")).getD 0)
  let s2 := ((trendMap.lookup (tvl.tvl_trend.getD "stable")).getD 0)
  let tvl_change := tvl.tvl_change_7d_pct.getD 0
  let s3 : ℚ :=
    if tvl_change > 5 then 4/10
    else if tvl_change > 2 then 2/10
    else if tvl_change < -5 then -(4/10)
    else if tvl_change < -2 then -(2/10)
    else 0
  let scores := [s1, s2, s3]
  pyRound 3 (scores.sum / max (scores.length : ℚ) 1)

/-- Embedding of `_whale_to_score`. -/
def whale_to_score (w : WhaleData) : ℚ :=
  let flow := w.flow_direction.getD "neutral"
  let net_sol := w.net_flow_sol.getD 0
  if flow = "accumulating" then
    if |net_sol| > 5000 then 8/10
    else if |net_sol| > 1000 then 5/10
    else 3/10
  else if flow = "distributing" then
    if |net_sol| > 5000 then -(8/10)
    else if |net_sol| > 1000 then -(5/10)
    else -(3/10)
  else 0

/-- The `scores` dict built at the top of `generate_prediction`, in dict
insertion order. -/
def signal_scores_of (technical_result : TechnicalResult) (ai : AiAnalysis)
    (fg : FearGreedData) (onchain : OnchainData) (whale : WhaleData) :
    List (String × ℚ) :=
  [("technical", normalize_score technical_result.technical_score),
   ("onchain", normalize_score (some (onchain_to_score onchain))),
   ("whales", normalize_score (some (whale_to_score whale))),
   ("news", normalize_score ((ai.news_sentiment.getD {}).sentiment_score)),
   ("social", normalize_score ((ai.social_sentiment.getD {}).sentiment_score)),
   ("fear_greed", normalize_score (some (fear_greed_to_score fg))),
   ("youtube", normalize_score ((ai.youtube_sentiment.getD {}).sentiment_score))]

/-- The raw weighted sum `sum(scores[key] * SIGNAL_WEIGHTS.get(key, 0))`
before the `round(..., 3)`. -/
def weighted_raw (technical_result : TechnicalResult) (ai : AiAnalysis)
    (fg : FearGreedData) (onchain : OnchainData) (whale : WhaleData) : ℚ :=
  ((signal_scores_of technical_result ai fg onchain whale).map
    (fun p => p.2 * weightOf p.1)).sum

/-- Count of scores with `s > 0.05` (`positive_signals` in the source). -/
def positive_signals (scores : List (String × ℚ)) : ℕ :=
  (scores.filter (fun p => p.2 > 5/100)).length

/-- Count of scores with `s < -0.05` (`negative_signals` in the source). -/
def negative_signals (scores : List (String × ℚ)) : ℕ :=
  (scores.filter (fun p => p.2 < -(5/100))).length

/-- The signal-agreement ratio of `generate_prediction`:
`max(positive, negative) / total_active`, defaulting to `0.5` when no
signal is active. -/
def agreement_of (scores : List (String × ℚ)) : ℚ :=
  let pos := positive_signals scores
  let neg := negative_signals scores
  if pos + neg > 0 then ((max pos neg : ℕ) : ℚ) / ((pos + neg : ℕ) : ℚ)
  else 1/2

/-- The confidence computation of `generate_prediction`:
`round(min(100, abs(weighted_score) * 100 * (0.7 + 0.3 * agreement)), 1)`. -/
def confidence_of (weighted_score agreement : ℚ) : ℚ :=
  pyRound 1 (min 100 (|weighted_score| * 100 * (7/10 + 3/10 * agreement)))

/-- The strength label from the fixed confidence thresholds. -/
def strength_of (confidence : ℚ) : String :=
  if confidence ≥ CONFIDENCE_HIGH then "STRONG"
  else if confidence ≥ CONFIDENCE_MEDIUM then "MODERATE"
  else if confidence ≥ CONFIDENCE_LOW then "WEAK"
  else "VERY WEAK"

/-- Stable insertion (descending by absolute score) used to model Python's
stable `sorted(scores.items(), key=lambda x: abs(x[1]), reverse=True)`. -/
def insertByAbsDesc (x : String × ℚ) : List (String × ℚ) → List (String × ℚ)
  | [] => [x]
  | y :: ys => if |y.2| ≤ |x.2| then x :: y :: ys else y :: insertByAbsDesc x ys

/-- Stable sort, descending by absolute score. -/
def sortByAbsDesc : List (String × ℚ) → List (String × ℚ)
  | [] => []
  | x :: xs => insertByAbsDesc x (sortByAbsDesc xs)

/-- One entry of the `factor_details` list built by `generate_prediction`.
The human-readable `description` string (a pure format of the same inputs,
built by `_get_factor_description`) is not modelled. -/
structure Factor where
  source : String
  score : ℚ
  weight : ℚ
  contribution : ℚ
  direction : String
deriving DecidableEq

/-- Model of Python's `x or y` on optional prices: a falsy (`None` or zero)
left operand falls through to the right operand. -/
def pyOrPrice (a b : Option ℚ) : Option ℚ :=
  match a with
  | some x => if x = 0 then b else some x
  | none => b

/-- The prediction payload returned by `generate_prediction`. -/
structure Prediction where
  timestamp : String
  direction : String
  confidence : ℚ
  strength : String
  weighted_score : ℚ
  current_price_usd : Option ℚ
  price_change_24h_pct : Option ℚ
  timeframe : String
  signal_scores : List (String × ℚ)
  signal_weights : List (String × ℚ)
  factors : List Factor
  top_factors : List Factor
  signals_bullish : ℕ
  signals_bearish : ℕ
  signal_agreement : ℚ
deriving DecidableEq

/-- Embedding of `generate_prediction` (`src/analysis/prediction_engine.py`,
lines 105-242). The reading of the wall clock `datetime.utcnow().isoformat()`
is made explicit as the extra parameter `now`; the `logger` calls have no
effect on the returned payload and are not modelled. -/
def generate_prediction (technical_result : TechnicalResult) (ai : AiAnalysis)
    (fg : FearGreedData) (onchain : OnchainData) (whale : WhaleData)
    (price : PriceData) (now : String) : Prediction :=
  let scores := signal_scores_of technical_result ai fg onchain whale
  let weighted_score := pyRound 3 (weighted_raw technical_result ai fg onchain whale)
  let direction :=
    if weighted_score > 15/100 then "LONG"
    else if weighted_score < -(15/100) then "SHORT"
    else "NEUTRAL"
  let agreement := agreement_of scores
  let confidence := confidence_of weighted_score agreement
  let factor_details := (sortByAbsDesc scores).map (fun p =>
    ({ source := p.1
       score := pyRound 3 p.2
       weight := weightOf p.1
       contribution := pyRound 3 (p.2 * weightOf p.1)
       direction :=
         if p.2 > (0:ℚ) then "bullish"
         else if p.2 < (0:ℚ) then "bearish"
         else "neutral"
     } : Factor))
  let cg := price.coingecko.getD {}
  let bt := price.binance_ticker.getD {}
  { timestamp := now
    direction := direction
    confidence := confidence
    strength := strength_of confidence
    weighted_score := weighted_score
    current_price_usd := pyOrPrice cg.price_usd bt.last_price
    price_change_24h_pct := cg.price_change_24h_pct
    timeframe := "24h"
    signal_scores := scores
    signal_weights := SIGNAL_WEIGHTS
    factors := factor_details.take 6
    top_factors := factor_details.take 3
    signals_bullish := positive_signals scores
    signals_bearish := negative_signals scores
    signal_agreement := pyRound 2 agreement }

/-! ## Outcome tracker (`src/history_tracker.py`)

A prediction record of the persisted store. ISO-8601 timestamp strings are
abstracted to their parsed value: `pred_time` is the creation instant in
hours (`none` models an unparsable timestamp, skipped by the evaluator),
`timeframe_hours` is the integer parsed from the `timeframe` string, and
`checked_at` stores the evaluation instant. -/
structure PredRecord where
  id : ℕ
  pred_time : Option ℚ
  direction : String
  timeframe_hours : ℕ
  price_at_prediction : Option ℚ
  price_after : Option ℚ := none
  actual_change_pct : Option ℚ := none
  was_correct : Option Bool := none
  checked_at : Option ℚ := none
deriving DecidableEq

/-- The per-record body of the loop in `check_prediction_results`
(`src/history_tracker.py`, lines 98-142): skip already-checked records,
skip records with an unparsable timestamp, skip immature records, skip
records without a valid non-zero `price_at_prediction`; otherwise fill the
outcome fields from the fetched price. -/
def checkRecord (current_price : ℚ) (now : ℚ) (pred : PredRecord) : PredRecord :=
  if pred.was_correct ≠ none then pred
  else
    match pred.pred_time with
    | none => pred
    | some t =>
      if now - t < (pred.timeframe_hours : ℚ) then pred
      else
        match pred.price_at_prediction with
        | none => pred
        | some price_at =>
          if price_at = 0 then pred
          else
            let actual_change := ((current_price - price_at) / price_at) * 100
            let was_correct :=
              if pred.direction = "LONG" then decide (actual_change > 0)
              else if pred.direction = "SHORT" then decide (actual_change < 0)
              else decide (|actual_change| < 2)
            { pred with
                price_after := some current_price
                actual_change_pct := some (pyRound 2 actual_change)
                was_correct := some was_correct
                checked_at := some now }

/-- Embedding of `check_prediction_results`. The single up-front reference
price fetch is modelled by `fetch : Option ℚ`: `none` covers a network
error, a timeout and a non-200 HTTP status (the code returns early in all
three cases); `some p` is a successful fetch parsed to price `p`. The
returned pair is the store after the pass and whether
`_save_predictions` was called (the `updated` flag). -/
def check_prediction_results (fetch : Option ℚ) (now : ℚ)
    (store : List PredRecord) : List PredRecord × Bool :=
  match fetch with
  | none => (store, false)
  | some current_price =>
    let updated := store.map (checkRecord current_price now)
    (updated, store.any (fun p => decide (checkRecord current_price now p ≠ p)))

/-! ## Indicator engine (`src/analysis/technical_analysis.py`)

Indicator results are modelled as structures whose `Option` fields stand
for dict keys that are present only on some paths. The numeric series
produced by the external `ta`/`pandas` libraries (RSI value, MACD lines,
Bollinger band values) are abstracted as function parameters returning
`Option` (with `none` for a NaN result); the length guards, the score
mappings and the result dictionaries are embedded from the source. -/

def TA_RSI_PERIOD : ℕ := 14

def TA_MACD_FAST : ℕ := 12

def TA_MACD_SLOW : ℕ := 26

def TA_MACD_SIGNAL : ℕ := 9

def TA_BB_PERIOD : ℕ := 20

def TA_EMA_SHORT : ℕ := 9

def TA_EMA_MEDIUM : ℕ := 21

def TA_EMA_LONG : ℕ := 50

def TA_EMA_VERY_LONG : ℕ := 200

/-- Result dict of `calculate_rsi`. On the insufficient-data and NaN paths
the returned dict is `{"value": None, "signal": "neutral"}` — it has no
`score` key, modelled by `score := none`. -/
structure RSIResult where
  value : Option ℚ := none
  signal : String := "neutral"
  score : Option ℚ := none
deriving DecidableEq

/-- The RSI-value-to-(signal, score) mapping of `calculate_rsi`
(lines 56-70), before the final `round(score, 3)`. -/
def rsi_score_map (rsi_value : ℚ) : String × ℚ :=
  if rsi_value ≥ 70 then ("overbought", -(1/2) - (rsi_value - 70) / 30 * (1/2))
  else if rsi_value ≤ 30 then ("oversold", 1/2 + (30 - rsi_value) / 30 * (1/2))
  else if rsi_value ≥ 60 then ("bullish", 2/10)
  else if rsi_value ≤ 40 then ("bearish", -(2/10))
  else ("neutral", 0)

/-- Embedding of `calculate_rsi`. `taRsi` abstracts the 14-period RSI value
computed by `ta.momentum.RSIIndicator` (`none` models NaN); the code then
rounds it to 2 decimals and applies the score mapping. -/
def calculate_rsi (taRsi : List ℚ → Option ℚ) (closes : List ℚ) : RSIResult :=
  if closes.length < TA_RSI_PERIOD + 1 then
    { value := none, signal := "neutral", score := none }
  else
    match taRsi closes with
    | none => { value := none, signal := "neutral", score := none }
    | some v0 =>
      let v := pyRound 2 v0
      let p := rsi_score_map v
      { value := some v, signal := p.1, score := some (pyRound 3 p.2) }

/-- Result dict of `calculate_macd`. -/
structure MACDResult where
  macd_line : Option ℚ := none
  signal_line : Option ℚ := none
  histogram : Option ℚ := none
  signal : String
  score : ℚ
deriving DecidableEq

/-- Embedding of `calculate_macd`. `taMacd` abstracts the five values read
from `ta.trend.MACD`: current MACD line, current signal line, current
histogram, previous MACD line, previous signal line (`none` models a NaN
MACD or signal line). -/
def calculate_macd (taMacd : List ℚ → Option (ℚ × ℚ × ℚ × ℚ × ℚ))
    (closes : List ℚ) : MACDResult :=
  if closes.length < TA_MACD_SLOW + TA_MACD_SIGNAL then
    { signal := "neutral", score := 0 }
  else
    match taMacd closes with
    | none => { signal := "neutral", score := 0 }
    | some (macd_line, signal_line, histogram, prev_macd, prev_signal) =>
      let p : String × ℚ :=
        if prev_macd < prev_signal ∧ macd_line > signal_line then
          ("bullish_crossover", 8/10)
        else if prev_macd > prev_signal ∧ macd_line < signal_line then
          ("bearish_crossover", -(8/10))
        else if macd_line > signal_line ∧ histogram > 0 then ("bullish", 4/10)
        else if macd_line < signal_line ∧ histogram < 0 then ("bearish", -(4/10))
        else ("neutral", 0)
      { macd_line := some (pyRound 6 macd_line)
        signal_line := some (pyRound 6 signal_line)
        histogram := some (pyRound 6 histogram)
        signal := p.1
        score := pyRound 3 p.2 }

/-- Result dict of `calculate_bollinger_bands`. -/
structure BBResult where
  upper : Option ℚ := none
  middle : Option ℚ := none
  lower : Option ℚ := none
  position : Option ℚ := none
  bandwidth : Option ℚ := none
  squeeze : Option Bool := none
  signal : String
  score : ℚ
deriving DecidableEq

/-- Embedding of `calculate_bollinger_bands`. `taBB` abstracts the band
values read from `ta.volatility.BollingerBands`: upper, middle, lower,
bandwidth (`none` models a NaN upper or lower band). -/
def calculate_bollinger_bands (taBB : List ℚ → Option (ℚ × ℚ × ℚ × ℚ))
    (closes : List ℚ) : BBResult :=
  if closes.length < TA_BB_PERIOD then { signal := "neutral", score := 0 }
  else
    match taBB closes with
    | none => { signal := "neutral", score := 0 }
    | some (upper, middle, lower, bandwidth) =>
      let current_price := closes.getLast?.getD 0
      let band_range := upper - lower
      let position := if band_range > 0 then (current_price - lower) / band_range
        else 1/2
      let squeeze := bandwidth < 5/100
      let p : String × ℚ :=
        if current_price ≥ upper then ("overbought", -(1/2))
        else if current_price ≤ lower then ("oversold", 1/2)
        else if squeeze then ("squeeze", 0)
        else if position > 7/10 then ("upper_zone", -(2/10))
        else if position < 3/10 then ("lower_zone", 2/10)
        else ("middle", 0)
      { upper := some (pyRound 4 upper)
        middle := some (pyRound 4 middle)
        lower := some (pyRound 4 lower)
        position := some (pyRound 3 position)
        bandwidth := some (pyRound 6 bandwidth)
        squeeze := some (decide squeeze)
        signal := p.1
        score := pyRound 3 p.2 }

/-- One horizon entry (`ema_short` / `ema_long`) of the EMA-crossover
result. -/
structure EMAHorizonResult where
  ema_fast : ℚ
  ema_slow : ℚ
  signal : String
  score : ℚ
deriving DecidableEq

/-- Result dict of `calculate_ema_crossovers`. When a horizon lacks
history its entry is absent (`none`); the dict never carries a top-level
`signal` key. -/
structure EMAResult where
  ema_short : Option EMAHorizonResult := none
  ema_long : Option EMAHorizonResult := none
  combined_score : ℚ := 0
deriving DecidableEq

/-- Tail of pandas `ewm(span, adjust=False).mean()` given the previous
smoothed value. -/
def ewmAux (a : ℚ) (prev : ℚ) : List ℚ → List ℚ
  | [] => []
  | x :: xs =>
    let y := (1 - a) * prev + a * x
    y :: ewmAux a y xs

/-- pandas `Series.ewm(span=span, adjust=False).mean()` over exact
rationals: `y_0 = x_0`, `y_t = (1 - a) * y_(t-1) + a * x_t` with
`a = 2 / (span + 1)`. -/
def ewm (span : ℕ) : List ℚ → List ℚ
  | [] => []
  | x :: xs => x :: ewmAux (2 / ((span : ℚ) + 1)) x xs

/-- The last element of a list, defaulting to 0 (`iloc[-1]`). -/
def ilocLast (xs : List ℚ) : ℚ := xs.getLast?.getD 0

/-- The second-to-last element of a list, defaulting to 0 (`iloc[-2]`). -/
def ilocPrev (xs : List ℚ) : ℚ := xs.dropLast.getLast?.getD 0

/-- One iteration of the horizon loop in `calculate_ema_crossovers`:
`none` when `len(df) < slow_period + 2`. -/
def emaHorizon (isLong : Bool) (fast_period slow_period : ℕ)
    (closes : List ℚ) : Option EMAHorizonResult :=
  if closes.length < slow_period + 2 then none
  else
    let ema_fast := ewm fast_period closes
    let ema_slow := ewm slow_period closes
    let curr_fast := ilocLast ema_fast
    let curr_slow := ilocLast ema_slow
    let prev_fast := ilocPrev ema_fast
    let prev_slow := ilocPrev ema_slow
    let p : String × ℚ :=
      if prev_fast < prev_slow ∧ curr_fast > curr_slow then
        ("golden_cross", if isLong then 7/10 else 5/10)
      else if prev_fast > prev_slow ∧ curr_fast < curr_slow then
        ("death_cross", if isLong then -(7/10) else -(5/10))
      else if curr_fast > curr_slow then ("bullish", 3/10)
      else ("bearish", -(3/10))
    some { ema_fast := pyRound 4 curr_fast
           ema_slow := pyRound 4 curr_slow
           signal := p.1
           score := pyRound 3 p.2 }

/-- Embedding of `calculate_ema_crossovers`: the 9/21 and 50/200 horizons,
and the combined score `round(total_score / max(count, 1), 3)`. The
per-horizon scores are exact multiples of 0.1, so summing the rounded
scores equals the source's sum of unrounded ones. -/
def calculate_ema_crossovers (closes : List ℚ) : EMAResult :=
  let s := emaHorizon false TA_EMA_SHORT TA_EMA_MEDIUM closes
  let l := emaHorizon true TA_EMA_LONG TA_EMA_VERY_LONG closes
  let hs := ([s, l].filterMap id)
  let total := (hs.map (fun h => h.score)).sum
  let avg := total / max ((hs.length : ℚ)) 1
  { ema_short := s, ema_long := l, combined_score := pyRound 3 avg }

/-- One OHLCV candle restricted to the columns the volume analysis reads. -/
structure Candle where
  close : ℚ
  volume : ℚ
deriving DecidableEq

/-- Result dict of `calculate_volume_analysis`. -/
structure VolumeResult where
  current_volume : Option ℚ := none
  avg_10_period : Option ℚ := none
  volume_ratio : Option ℚ := none
  price_direction : Option String := none
  signal : String
  score : ℚ
deriving DecidableEq

/-- Embedding of `calculate_volume_analysis`. The unused local
`avg_vol_20` of the source is not modelled. -/
def calculate_volume_analysis (candles : List Candle) : VolumeResult :=
  if candles.length < 10 then { signal := "neutral", score := 0 }
  else
    let volumes := candles.map (fun c => c.volume)
    let closes := candles.map (fun c => c.close)
    let current_vol := ilocLast volumes
    let avg_vol_10 := ((volumes.drop (volumes.length - 10)).sum) / 10
    let vol_ratio := current_vol / max avg_vol_10 1
    let price_change := (ilocLast closes - ilocPrev closes) / max (ilocPrev closes) (1/100)
    let price_up := price_change > 0
    let p : String × ℚ :=
      if vol_ratio > 2 then
        if price_up then ("high_volume_rally", 6/10)
        else ("high_volume_selloff", -(6/10))
      else if vol_ratio > 3/2 then
        if price_up then ("above_avg_buying", 3/10)
        else ("above_avg_selling", -(3/10))
      else if vol_ratio < 1/2 then ("low_volume", 0)
      else ("normal", if price_up then 1/10 else -(1/10))
    { current_volume := some current_vol
      avg_10_period := some (pyRound 2 avg_vol_10)
      volume_ratio := some (pyRound 3 vol_ratio)
      price_direction := some (if price_up then "up" else "down")
      signal := p.1
      score := pyRound 3 p.2 }

/-- A mature unchecked LONG record: created at time 0 with a 24-hour
timeframe and `price_at_prediction = 100`. -/
def recLONG : PredRecord :=
  { id := 1, pred_time := some 0, direction := "LONG", timeframe_hours := 24,
    price_at_prediction := some 100 }

/-- A mature unchecked NEUTRAL record, same shape as `recLONG`. -/
def recNEUTRAL : PredRecord :=
  { id := 2, pred_time := some 0, direction := "NEUTRAL", timeframe_hours := 24,
    price_at_prediction := some 100 }

/-- A fully checked record, for the C6 witness. -/
def recChecked : PredRecord :=
  { id := 3, pred_time := some 0, direction := "SHORT", timeframe_hours := 24,
    price_at_prediction := some 100, price_after := some 95,
    actual_change_pct := some (-5), was_correct := some true, checked_at := some 30 }

/-- Whale data with flow `accumulating` and net flow 6000, giving the
maximal whale score 0.8. -/
def whaleAccum : WhaleData :=
  { flow_direction := some "accumulating", net_flow_sol := some 6000 }

/-- AI analysis whose news sentiment is 1501/1800, making the raw weighted
sum exactly 0.1501. -/
def aiNews : AiAnalysis :=
  { news_sentiment := some { sentiment_score := some (1501/1800) } }

/-- AI analysis whose youtube sentiment is 1/70: no source is active, the
raw weighted sum is exactly 0.001. -/
def aiYt : AiAnalysis :=
  { youtube_sentiment := some { sentiment_score := some (1/70) } }

/-- The prediction payload without its `timestamp` field. -/
def predictionData (p : Prediction) :=
  (p.direction, p.confidence, p.strength, p.weighted_score, p.current_price_usd,
   p.price_change_24h_pct, p.timeframe, p.signal_scores, p.signal_weights,
   p.factors, p.top_factors, p.signals_bullish, p.signals_bearish,
   p.signal_agreement)

/-! ## Theorems -/

theorem roundHalfEven_floor_le (q : ℚ) : ⌊q⌋ ≤ roundHalfEven q := by
  unfold roundHalfEven
  split_ifs <;> omega

theorem roundHalfEven_le_floor_add_one (q : ℚ) : roundHalfEven q ≤ ⌊q⌋ + 1 := by
  unfold roundHalfEven
  split_ifs <;> omega

theorem roundHalfEven_mono {q r : ℚ} (h : q ≤ r) :
    roundHalfEven q ≤ roundHalfEven r := by
  have hf : ⌊q⌋ ≤ ⌊r⌋ := Int.floor_mono h
  rcases lt_or_eq_of_le hf with hlt | heq
  · calc roundHalfEven q ≤ ⌊q⌋ + 1 := roundHalfEven_le_floor_add_one q
      _ ≤ ⌊r⌋ := by omega
      _ ≤ roundHalfEven r := roundHalfEven_floor_le r
  · unfold roundHalfEven
    rw [← heq]
    have hqr : q - ⌊q⌋ ≤ r - ⌊q⌋ := by linarith
    split_ifs <;> first | omega | linarith

theorem pyRound_mono (nd : ℕ) {q r : ℚ} (h : q ≤ r) :
    pyRound nd q ≤ pyRound nd r := by
  unfold pyRound
  have hp : (0:ℚ) < 10 ^ nd := by positivity
  have : q * 10 ^ nd ≤ r * 10 ^ nd := by nlinarith
  have hm := roundHalfEven_mono this
  have hcast : (roundHalfEven (q * 10 ^ nd) : ℚ) ≤ (roundHalfEven (r * 10 ^ nd) : ℚ) := by
    exact_mod_cast hm
  exact (div_le_div_iff_of_pos_right hp).mpr hcast

/-! ## Helper lemmas -/

theorem gp_timestamp (t : TechnicalResult) (ai : AiAnalysis) (fg : FearGreedData)
    (oc : OnchainData) (w : WhaleData) (pr : PriceData) (now : String) :
    (generate_prediction t ai fg oc w pr now).timestamp = now := rfl

theorem gp_weighted_score (t : TechnicalResult) (ai : AiAnalysis) (fg : FearGreedData)
    (oc : OnchainData) (w : WhaleData) (pr : PriceData) (now : String) :
    (generate_prediction t ai fg oc w pr now).weighted_score =
      pyRound 3 (weighted_raw t ai fg oc w) := rfl

theorem gp_direction (t : TechnicalResult) (ai : AiAnalysis) (fg : FearGreedData)
    (oc : OnchainData) (w : WhaleData) (pr : PriceData) (now : String) :
    (generate_prediction t ai fg oc w pr now).direction =
      (if pyRound 3 (weighted_raw t ai fg oc w) > 15/100 then "LONG"
       else if pyRound 3 (weighted_raw t ai fg oc w) < -(15/100) then "SHORT"
       else "NEUTRAL") := rfl

theorem gp_confidence (t : TechnicalResult) (ai : AiAnalysis) (fg : FearGreedData)
    (oc : OnchainData) (w : WhaleData) (pr : PriceData) (now : String) :
    (generate_prediction t ai fg oc w pr now).confidence =
      confidence_of (pyRound 3 (weighted_raw t ai fg oc w))
        (agreement_of (signal_scores_of t ai fg oc w)) := rfl

theorem gp_signal_agreement (t : TechnicalResult) (ai : AiAnalysis) (fg : FearGreedData)
    (oc : OnchainData) (w : WhaleData) (pr : PriceData) (now : String) :
    (generate_prediction t ai fg oc w pr now).signal_agreement =
      pyRound 2 (agreement_of (signal_scores_of t ai fg oc w)) := rfl

theorem checkRecord_skip_checked (cp now : ℚ) (pred : PredRecord)
    (h : pred.was_correct ≠ none) : checkRecord cp now pred = pred := by
  unfold checkRecord
  rw [if_pos h]

/-! ## Claim theorems -/

/-- C8: if the reference-price fetch of an outcome-evaluation pass fails,
times out, or returns a non-success status (all modelled by `fetch = none`),
the pass returns the store unchanged and does not write it back: no record
is mutated and none is marked checked. -/
theorem C8_fetch_failure_no_mutation (now : ℚ) (store : List PredRecord) :
    check_prediction_results none now store = (store, false) := rfl

/-- C6: outcome evaluation is idempotent on checked records: a record whose
`was_correct` is already non-null is returned unchanged by the per-record
evaluation step (all its outcome fields and `checked_at` kept), and a pass
over a store of only-checked records returns it unchanged without writing. -/
theorem C6_idempotent_on_checked :
    (∀ cp now pred, pred.was_correct ≠ none → checkRecord cp now pred = pred) ∧
    (∀ fetch now store, (∀ p ∈ store, p.was_correct ≠ none) →
      check_prediction_results fetch now store = (store, false)) := by
  constructor
  · exact checkRecord_skip_checked
  · intro fetch now store h
    match fetch with
    | none => rfl
    | some cp =>
      have hmap : store.map (checkRecord cp now) = store := by
        have : store.map (checkRecord cp now) = store.map id :=
          List.map_congr_left (fun p hp => checkRecord_skip_checked cp now p (h p hp))
        simpa using this
      have hany : (store.any (fun p => decide (checkRecord cp now p ≠ p))) = false := by
        rw [List.any_eq_false]
        intro p hp
        simp [checkRecord_skip_checked cp now p (h p hp)]
      show (store.map (checkRecord cp now),
            store.any fun p => decide (checkRecord cp now p ≠ p)) = (store, false)
      rw [hmap, hany]

/-- C3: when the tracker evaluates a mature, unchecked prediction with a
valid non-zero `price_at_prediction`, `was_correct` is set to: for LONG,
whether the realized percentage change is positive; for SHORT, whether it
is negative; otherwise (NEUTRAL) whether its absolute value is below 2. -/
theorem C3_correctness_rule (cp now t pa : ℚ) (pred : PredRecord)
    (h0 : pred.was_correct = none) (h1 : pred.pred_time = some t)
    (h2 : (pred.timeframe_hours : ℚ) ≤ now - t)
    (h3 : pred.price_at_prediction = some pa) (h4 : pa ≠ 0) :
    (checkRecord cp now pred).was_correct =
      some (if pred.direction = "LONG" then decide (((cp - pa) / pa) * 100 > 0)
            else if pred.direction = "SHORT" then decide (((cp - pa) / pa) * 100 < 0)
            else decide (|((cp - pa) / pa) * 100| < 2)) := by
  obtain ⟨i, pt, dir, tf, pap, paf, acp, wc, ca⟩ := pred
  simp only at h0 h1 h2 h3 ⊢
  subst h0 h1 h3
  simp only [checkRecord, ne_eq, not_true_eq_false, if_false, ite_false,
    reduceCtorEq, not_false_eq_true, if_neg (not_lt.mpr h2), if_neg h4]

/-- Witness for C3 at the four example points of the claim: LONG with the
price moving 100 to 101 is correct and 100 to 99 incorrect; NEUTRAL with a
1.5 percent move is correct and with a 3 percent move incorrect. -/
theorem C3_correctness_rule_witness :
    (checkRecord 101 25 recLONG).was_correct = some true ∧
    (checkRecord 99 25 recLONG).was_correct = some false ∧
    (checkRecord (203/2) 25 recNEUTRAL).was_correct = some true ∧
    (checkRecord 103 25 recNEUTRAL).was_correct = some false := by
  refine ⟨?_, ?_, ?_, ?_⟩
  · rw [C3_correctness_rule 101 25 0 100 recLONG rfl rfl (by norm_num [recLONG]) rfl
      (by norm_num)]
    norm_num [recLONG]
  · rw [C3_correctness_rule 99 25 0 100 recLONG rfl rfl (by norm_num [recLONG]) rfl
      (by norm_num)]
    norm_num [recLONG]
  · rw [C3_correctness_rule (203/2) 25 0 100 recNEUTRAL rfl rfl
      (by norm_num [recNEUTRAL]) rfl (by norm_num)]
    norm_num [recNEUTRAL]
    right
    refine ⟨by decide, ?_⟩
    rw [abs_of_pos (by norm_num : (0:ℚ) < 3/2)]
    norm_num
  · rw [C3_correctness_rule 103 25 0 100 recNEUTRAL rfl rfl
      (by norm_num [recNEUTRAL]) rfl (by norm_num)]
    norm_num [recNEUTRAL]
    decide

/-- C10: a successful evaluation pass maps the single fetched price over
the whole store, and every record newly checked in the pass receives that
price as `price_after`, with `actual_change_pct` computed against it
(rather than against any per-record maturity-time price). -/
theorem C10_single_reference_price (cp now : ℚ) (store : List PredRecord)
    (pred : PredRecord) (pa : ℚ)
    (h0 : pred.was_correct = none) (h3 : pred.price_at_prediction = some pa)
    (hupd : (checkRecord cp now pred).was_correct ≠ none) :
    (check_prediction_results (some cp) now store).1 = store.map (checkRecord cp now) ∧
    (checkRecord cp now pred).price_after = some cp ∧
    (checkRecord cp now pred).actual_change_pct =
      some (pyRound 2 (((cp - pa) / pa) * 100)) ∧
    (checkRecord cp now pred).checked_at = some now := by
  refine ⟨rfl, ?_⟩
  obtain ⟨i, pt, dir, tf, pap, paf, acp, wc, ca⟩ := pred
  simp only at h0 h3 hupd ⊢
  subst h0 h3
  unfold checkRecord at hupd ⊢
  simp only [ne_eq, reduceCtorEq, not_false_eq_true, ite_false, if_false,
    not_true_eq_false] at hupd ⊢
  cases pt with
  | none => simp at hupd
  | some t =>
    by_cases hm : now - t < (tf : ℚ)
    · simp [hm] at hupd
    · by_cases hz : pa = 0
      · simp [hm, hz] at hupd
      · simp [hm, hz]

/-- Witness for C10: a pass at price 105 over the store `[recLONG]`. -/
theorem C10_single_reference_price_witness :
    (check_prediction_results (some 105) 25 [recLONG]).1 =
      [recLONG].map (checkRecord 105 25) ∧
    (checkRecord 105 25 recLONG).price_after = some 105 ∧
    (checkRecord 105 25 recLONG).actual_change_pct =
      some (pyRound 2 (((105 - 100) / 100) * 100)) ∧
    (checkRecord 105 25 recLONG).checked_at = some 25 :=
  C10_single_reference_price 105 25 [recLONG] recLONG 100 rfl rfl
    (by norm_num [checkRecord, recLONG]; simp)

/-- Witness for C6: re-evaluating the already-checked `recChecked` changes
nothing, per-record and per-pass. -/
theorem C6_idempotent_on_checked_witness :
    checkRecord 120 50 recChecked = recChecked ∧
    check_prediction_results (some 120) 50 [recChecked] = ([recChecked], false) := by
  constructor
  · exact C6_idempotent_on_checked.1 120 50 recChecked (by decide)
  · refine C6_idempotent_on_checked.2 (some 120) 50 [recChecked] ?_
    intro p hp
    rw [List.mem_singleton] at hp
    subst hp
    decide

theorem weightOf_whales : weightOf "whales" = 0 := by
  simp [weightOf, SIGNAL_WEIGHTS, List.lookup]

theorem pyRound_zero (nd : ℕ) : pyRound nd 0 = 0 := by
  norm_num [pyRound, roundHalfEven]

theorem normalize_score_none : normalize_score none = 0 := rfl

theorem onchain_to_score_default : onchain_to_score {} = 0 := by
  simp [onchain_to_score, pressureMap, trendMap, List.lookup]
  norm_num [pyRound_zero]

theorem fear_greed_to_score_default : fear_greed_to_score {} = 0 := by
  simp [fear_greed_to_score]
  norm_num [pyRound_zero]

/-- Expansion of the weighted sum: the six configured sources appear with
their configured weights, and the whale score is multiplied by the
defaulted weight 0 and so vanishes from the sum. -/
theorem weighted_raw_eq (t : TechnicalResult) (ai : AiAnalysis) (fg : FearGreedData)
    (oc : OnchainData) (w : WhaleData) :
    weighted_raw t ai fg oc w =
      normalize_score t.technical_score * (30/100)
      + normalize_score (some (onchain_to_score oc)) * (20/100)
      + normalize_score ((ai.news_sentiment.getD {}).sentiment_score) * (18/100)
      + normalize_score ((ai.social_sentiment.getD {}).sentiment_score) * (15/100)
      + normalize_score (some (fear_greed_to_score fg)) * (10/100)
      + normalize_score ((ai.youtube_sentiment.getD {}).sentiment_score) * (7/100) := by
  simp [weighted_raw, signal_scores_of, weightOf, SIGNAL_WEIGHTS, List.lookup]
  ring

/-- C1 counterexample: the weight table has no `whales` entry, so the
claim that it contains all 7 named sources is false, and a whale score of
0.8 is multiplied by the defaulted weight 0: the resulting weighted score
is 0, not 0.8 times a configured weight. -/
theorem C1_counterexample :
    SIGNAL_WEIGHTS.lookup "whales" = none ∧
    whale_to_score whaleAccum = 8/10 ∧
    (generate_prediction {} {} {} {} whaleAccum {} "t").weighted_score = 0 := by
  refine ⟨?_, ?_, ?_⟩
  · simp [SIGNAL_WEIGHTS, List.lookup]
  · rw [whale_to_score]
    have h6 : |(6000:ℚ)| = 6000 := abs_of_pos (by norm_num)
    simp only [whaleAccum, Option.getD_some, h6]
    norm_num
  · rw [gp_weighted_score, weighted_raw_eq]
    norm_num [normalize_score, onchain_to_score_default, fear_greed_to_score_default,
      pyRound_zero]

/-- C1 (amended): the weight table has entries for exactly the six sources
technical, onchain, news, social, fear_greed, youtube (whales is absent);
those six weights sum to 1.0; no validation of the sum is performed
anywhere at configuration or startup time (none exists in the code to
state); and in `generate_prediction` the whales score is multiplied by the
defaulted weight 0, so the weighted score is independent of the whale
input. -/
theorem C1_amended :
    SIGNAL_WEIGHTS.map Prod.fst =
      ["technical", "onchain", "news", "social", "fear_greed", "youtube"] ∧
    (SIGNAL_WEIGHTS.map Prod.snd).sum = 1 ∧
    weightOf "whales" = 0 ∧
    (∀ t ai fg oc w w2 pr now,
      (generate_prediction t ai fg oc w pr now).weighted_score =
        (generate_prediction t ai fg oc w2 pr now).weighted_score) := by
  refine ⟨rfl, ?_, weightOf_whales, ?_⟩
  · simp [SIGNAL_WEIGHTS]
    norm_num
  · intro t ai fg oc w w2 pr now
    rw [gp_weighted_score, gp_weighted_score, weighted_raw_eq, weighted_raw_eq]

/-- C2 counterexample: a raw weighted score of exactly 0.1501 is rounded
to 0.150 before the threshold comparison, so the direction is NEUTRAL and
not LONG as the claim states. -/
theorem C2_counterexample :
    weighted_raw {} aiNews {} {} {} = 1501/10000 ∧
    (generate_prediction {} aiNews {} {} {} {} "t").direction = "NEUTRAL" := by
  have hn : normalize_score (some (1501/1800 : ℚ)) = 1501/1800 := by
    show max (-1) (min 1 (1501/1800 : ℚ)) = 1501/1800
    rw [min_eq_right (by norm_num), max_eq_right (by norm_num)]
  have hraw : weighted_raw {} aiNews {} {} {} = 1501/10000 := by
    rw [weighted_raw_eq]
    simp only [aiNews, Option.getD_some]
    norm_num [hn, normalize_score_none, onchain_to_score_default,
      fear_greed_to_score_default, normalize_score, pyRound_zero]
  refine ⟨hraw, ?_⟩
  rw [gp_direction, hraw]
  norm_num [pyRound, roundHalfEven]

/-- C2 (amended): the direction is LONG exactly when the weighted sum
rounded to 3 decimals exceeds 0.15, SHORT exactly when the rounded sum is
below -0.15, and NEUTRAL otherwise; in particular the raw sum 0.1501
rounds to 0.150 and yields NEUTRAL (see the counterexample), while a
rounded score of 0.151 yields LONG. -/
theorem C2_amended (t : TechnicalResult) (ai : AiAnalysis) (fg : FearGreedData)
    (oc : OnchainData) (w : WhaleData) (pr : PriceData) (now : String) :
    ((generate_prediction t ai fg oc w pr now).direction = "LONG" ↔
      15/100 < pyRound 3 (weighted_raw t ai fg oc w)) ∧
    ((generate_prediction t ai fg oc w pr now).direction = "SHORT" ↔
      pyRound 3 (weighted_raw t ai fg oc w) < -(15/100)) ∧
    ((generate_prediction t ai fg oc w pr now).direction = "NEUTRAL" ↔
      (-(15/100) ≤ pyRound 3 (weighted_raw t ai fg oc w) ∧
       pyRound 3 (weighted_raw t ai fg oc w) ≤ 15/100)) := by
  rw [gp_direction]
  set x := pyRound 3 (weighted_raw t ai fg oc w) with hx
  by_cases h1 : x > 15/100
  · rw [if_pos h1]
    exact ⟨iff_of_true rfl h1,
      iff_of_false (by decide) (by intro h; linarith),
      iff_of_false (by decide) (by rintro ⟨h3, h4⟩; linarith)⟩
  · rw [if_neg h1]
    by_cases h2 : x < -(15/100)
    · rw [if_pos h2]
      exact ⟨iff_of_false (by decide) h1,
        iff_of_true rfl h2,
        iff_of_false (by decide) (by rintro ⟨h3, h4⟩; linarith)⟩
    · rw [if_neg h2]
      exact ⟨iff_of_false (by decide) h1,
        iff_of_false (by decide) h2,
        iff_of_true rfl ⟨not_lt.mp h2, not_lt.mp h1⟩⟩

theorem normalize_score_of_mem (s : ℚ) (h1 : -1 ≤ s) (h2 : s ≤ 1) :
    normalize_score (some s) = s := by
  show max (-1) (min 1 s) = s
  rw [min_eq_right h2, max_eq_right h1]

theorem whale_to_score_default : whale_to_score {} = 0 := by
  simp [whale_to_score]

theorem aiYt_scores : signal_scores_of {} aiYt {} {} {} =
    [("technical", 0), ("onchain", 0), ("whales", 0), ("news", 0),
     ("social", 0), ("fear_greed", 0), ("youtube", 1/70)] := by
  rw [signal_scores_of]
  simp only [aiYt, Option.getD_some]
  rw [onchain_to_score_default, whale_to_score_default, fear_greed_to_score_default,
    normalize_score_of_mem 0 (by norm_num) (by norm_num),
    normalize_score_of_mem (1/70) (by norm_num) (by norm_num)]
  rfl

theorem aiYt_agreement : agreement_of (signal_scores_of {} aiYt {} {} {}) = 1/2 := by
  rw [aiYt_scores]
  norm_num [agreement_of, positive_signals, negative_signals, List.filter_cons,
    decide_eq_true_eq]

/-- C5 counterexample: with the youtube score 1/70 and all other sources
neutral, the stored confidence is 0.1 (the rounded value), while the
min-formula of the claim evaluates to 0.085: the equality claimed does not
hold because the code rounds the confidence to one decimal. -/
theorem C5_counterexample :
    (generate_prediction {} aiYt {} {} {} {} "t").confidence = 1/10 ∧
    (generate_prediction {} aiYt {} {} {} {} "t").signal_agreement = 1/2 ∧
    min 100 (|(generate_prediction {} aiYt {} {} {} {} "t").weighted_score| * 100 *
      (7/10 + 3/10 * (generate_prediction {} aiYt {} {} {} {} "t").signal_agreement))
      = 17/200 ∧
    (1/10 : ℚ) ≠ 17/200 := by
  have hraw : weighted_raw {} aiYt {} {} {} = 1/1000 := by
    rw [weighted_raw_eq]
    simp only [aiYt, Option.getD_some]
    rw [onchain_to_score_default, fear_greed_to_score_default,
      normalize_score_of_mem 0 (by norm_num) (by norm_num),
      normalize_score_of_mem (1/70) (by norm_num) (by norm_num)]
    show (0:ℚ) * (30/100) + 0 * (20/100) + normalize_score none * (18/100)
      + normalize_score none * (15/100) + 0 * (10/100) + 1/70 * (7/100) = 1/1000
    rw [normalize_score_none]
    norm_num
  have hws : (generate_prediction {} aiYt {} {} {} {} "t").weighted_score = 1/1000 := by
    rw [gp_weighted_score, hraw]
    norm_num [pyRound, roundHalfEven]
  have hagp : (generate_prediction {} aiYt {} {} {} {} "t").signal_agreement = 1/2 := by
    rw [gp_signal_agreement, aiYt_agreement]
    norm_num [pyRound, roundHalfEven]
  refine ⟨?_, hagp, ?_, by norm_num⟩
  · rw [gp_confidence, hraw, aiYt_agreement]
    have h1 : pyRound 3 (1/1000) = 1/1000 := by norm_num [pyRound, roundHalfEven]
    rw [h1]
    unfold confidence_of
    rw [abs_of_pos (by norm_num : (0:ℚ) < 1/1000),
      min_eq_right (by norm_num : (1:ℚ)/1000 * 100 * (7/10 + 3/10 * (1/2)) ≤ 100)]
    norm_num [pyRound, roundHalfEven]
  · rw [hws, hagp]
    rw [abs_of_pos (by norm_num : (0:ℚ) < 1/1000)]
    norm_num

/-- C5 (amended): the stored confidence equals the claimed
`min(100, |weighted score| * 100 * (0.7 + 0.3 * agreement))` only after
rounding to one decimal, and for a fixed weighted score the (rounded)
confidence is monotonically non-decreasing, not strictly increasing, in
the agreement ratio; all-agreeing active sources therefore yield at least
the confidence of mixed-sign sources at agreement 0.5. -/
theorem C5_amended :
    (∀ t ai fg oc w pr now,
      (generate_prediction t ai fg oc w pr now).confidence =
        pyRound 1 (min 100 (|pyRound 3 (weighted_raw t ai fg oc w)| * 100 *
          (7/10 + 3/10 * agreement_of (signal_scores_of t ai fg oc w))))) ∧
    (∀ ws a b : ℚ, a ≤ b → confidence_of ws a ≤ confidence_of ws b) := by
  constructor
  · intro t ai fg oc w pr now
    rw [gp_confidence]
    rfl
  · intro ws a b h
    unfold confidence_of
    apply pyRound_mono
    refine min_le_min (le_refl 100) ?_
    apply mul_le_mul_of_nonneg_left _ (by positivity)
    linarith

/-- Witness for C5: the rounded-confidence equation at a concrete input,
and monotonicity instantiated at agreement 0.5 versus 1. -/
theorem C5_amended_witness :
    (generate_prediction {} {} {} {} {} {} "t").confidence =
      pyRound 1 (min 100 (|pyRound 3 (weighted_raw {} {} {} {} {})| * 100 *
        (7/10 + 3/10 * agreement_of (signal_scores_of {} {} {} {} {})))) ∧
    confidence_of (1/10) (1/2) ≤ confidence_of (1/10) 1 :=
  ⟨C5_amended.1 {} {} {} {} {} {} "t", C5_amended.2 (1/10) (1/2) 1 (by norm_num)⟩

/-- C9 counterexample: two invocations of `generate_prediction` with
identical six inputs but different wall-clock readings produce payloads
that are not field-for-field equal — the `timestamp` field comes from
`datetime.utcnow()`, not from the inputs. -/
theorem C9_counterexample :
    generate_prediction {} {} {} {} {} {} "2024-01-01T00:00:00" ≠
      generate_prediction {} {} {} {} {} {} "2024-01-02T00:00:00" := by
  intro h
  have h1 := congrArg Prediction.timestamp h
  rw [gp_timestamp, gp_timestamp] at h1
  exact absurd h1 (by decide)

/-- C9 (amended): `generate_prediction` is deterministic given its six
inputs and the invocation-time clock reading: every payload field except
`timestamp` is a function of the six inputs alone, and `timestamp` equals
the clock reading. -/
theorem C9_amended (t : TechnicalResult) (ai : AiAnalysis) (fg : FearGreedData)
    (oc : OnchainData) (w : WhaleData) (pr : PriceData) (now1 now2 : String) :
    predictionData (generate_prediction t ai fg oc w pr now1) =
      predictionData (generate_prediction t ai fg oc w pr now2) ∧
    (generate_prediction t ai fg oc w pr now1).timestamp = now1 :=
  ⟨rfl, rfl⟩

/-- C4: the RSI score mapping hits the claimed boundary values exactly
(70 gives -0.5, 100 gives -1.0, 30 gives +0.5, 0 gives +1.0); on [70, 100]
the signal is `overbought` with the linear score
`-0.5 - (value - 70) / 30 * 0.5`, whose rounded value stays in
[-1, -0.5]; on [0, 30] the signal is `oversold` with the symmetric linear
score staying in [0.5, 1]; and for a series long enough, `calculate_rsi`
reports exactly the rounded mapped score of the (2-decimal-rounded) RSI
value. -/
theorem C4_rsi_score_mapping :
    (rsi_score_map 70).2 = -(1/2) ∧ (rsi_score_map 100).2 = -1 ∧
    (rsi_score_map 30).2 = 1/2 ∧ (rsi_score_map 0).2 = 1 ∧
    (∀ v : ℚ, 70 ≤ v → v ≤ 100 →
      (rsi_score_map v).1 = "overbought" ∧
      (rsi_score_map v).2 = -(1/2) - (v - 70) / 30 * (1/2) ∧
      -1 ≤ pyRound 3 (rsi_score_map v).2 ∧ pyRound 3 (rsi_score_map v).2 ≤ -(1/2)) ∧
    (∀ v : ℚ, 0 ≤ v → v ≤ 30 →
      (rsi_score_map v).1 = "oversold" ∧
      (rsi_score_map v).2 = 1/2 + (30 - v) / 30 * (1/2) ∧
      1/2 ≤ pyRound 3 (rsi_score_map v).2 ∧ pyRound 3 (rsi_score_map v).2 ≤ 1) ∧
    (∀ taRsi closes v, ¬ closes.length < TA_RSI_PERIOD + 1 → taRsi closes = some v →
      (calculate_rsi taRsi closes).value = some (pyRound 2 v) ∧
      (calculate_rsi taRsi closes).score =
        some (pyRound 3 (rsi_score_map (pyRound 2 v)).2)) := by
  refine ⟨by norm_num [rsi_score_map], by norm_num [rsi_score_map],
    by norm_num [rsi_score_map], by norm_num [rsi_score_map], ?_, ?_, ?_⟩
  · intro v h1 h2
    have hv : (rsi_score_map v) = ("overbought", -(1/2) - (v - 70) / 30 * (1/2)) := by
      unfold rsi_score_map
      rw [if_pos (by linarith)]
    rw [hv]
    refine ⟨rfl, rfl, ?_, ?_⟩
    · have hlow : (-1 : ℚ) ≤ -(1/2) - (v - 70) / 30 * (1/2) := by linarith
      calc (-1 : ℚ) = pyRound 3 (-1) := by norm_num [pyRound, roundHalfEven]
        _ ≤ pyRound 3 (-(1/2) - (v - 70) / 30 * (1/2)) := pyRound_mono 3 hlow
    · have hhigh : -(1/2) - (v - 70) / 30 * (1/2) ≤ -(1/2 : ℚ) := by linarith
      calc pyRound 3 (-(1/2) - (v - 70) / 30 * (1/2)) ≤ pyRound 3 (-(1/2)) :=
          pyRound_mono 3 hhigh
        _ = -(1/2) := by norm_num [pyRound, roundHalfEven]
  · intro v h1 h2
    have hv : (rsi_score_map v) = ("oversold", 1/2 + (30 - v) / 30 * (1/2)) := by
      unfold rsi_score_map
      rw [if_neg (by intro h; linarith), if_pos (by linarith)]
    rw [hv]
    refine ⟨rfl, rfl, ?_, ?_⟩
    · have hlow : (1/2 : ℚ) ≤ 1/2 + (30 - v) / 30 * (1/2) := by linarith
      calc (1/2 : ℚ) = pyRound 3 (1/2) := by norm_num [pyRound, roundHalfEven]
        _ ≤ pyRound 3 (1/2 + (30 - v) / 30 * (1/2)) := pyRound_mono 3 hlow
    · have hhigh : 1/2 + (30 - v) / 30 * (1/2) ≤ (1 : ℚ) := by linarith
      calc pyRound 3 (1/2 + (30 - v) / 30 * (1/2)) ≤ pyRound 3 1 := pyRound_mono 3 hhigh
        _ = 1 := by norm_num [pyRound, roundHalfEven]
  · intro taRsi closes v hlen hv
    unfold calculate_rsi
    rw [if_neg hlen, hv]
    exact ⟨rfl, rfl⟩

/-- Witness for C4: the series of 15 bars with abstracted RSI value 85
(overbought) and the oversold range at value 15. -/
theorem C4_rsi_score_mapping_witness :
    (calculate_rsi (fun _ => some 85) (List.replicate 15 1)).score =
      some (pyRound 3 (rsi_score_map (pyRound 2 85)).2) ∧
    -1 ≤ pyRound 3 (rsi_score_map (85:ℚ)).2 ∧
    pyRound 3 (rsi_score_map (85:ℚ)).2 ≤ -(1/2) ∧
    1/2 ≤ pyRound 3 (rsi_score_map (15:ℚ)).2 ∧
    pyRound 3 (rsi_score_map (15:ℚ)).2 ≤ 1 := by
  obtain ⟨-, -, -, -, hOB, hOS, hconn⟩ := C4_rsi_score_mapping
  obtain ⟨-, -, hob1, hob2⟩ := hOB 85 (by norm_num) (by norm_num)
  obtain ⟨-, -, hos1, hos2⟩ := hOS 15 (by norm_num) (by norm_num)
  exact ⟨(hconn (fun _ => some 85) (List.replicate 15 1) 85
    (by simp [TA_RSI_PERIOD]) rfl).2, hob1, hob2, hos1, hos2⟩

/-- C7 counterexample: on a too-short series `calculate_rsi` returns a
dict with no `score` key at all (not a score of 0), and
`calculate_ema_crossovers` returns a dict with no `signal` label (only a
combined score 0), so the claim that every indicator returns score 0 and
signal `neutral` fails. -/
theorem C7_counterexample :
    (calculate_rsi (fun _ => none) []).score = none ∧
    calculate_ema_crossovers [] =
      { ema_short := none, ema_long := none, combined_score := 0 } := by
  constructor
  · rfl
  · unfold calculate_ema_crossovers emaHorizon
    norm_num [TA_EMA_MEDIUM, TA_EMA_VERY_LONG, pyRound_zero]

/-- C7 (amended): each indicator with a too-short series returns its
neutral insufficient-data dict without raising: MACD, Bollinger and Volume
return signal `neutral` with score 0; RSI returns value None and signal
`neutral` with no score key; the EMA result has no signal label and
returns combined score 0 with both horizons absent. -/
theorem C7_insufficient_data :
    (∀ taRsi closes, closes.length < TA_RSI_PERIOD + 1 →
      calculate_rsi taRsi closes =
        { value := none, signal := "neutral", score := none }) ∧
    (∀ taMacd closes, closes.length < TA_MACD_SLOW + TA_MACD_SIGNAL →
      calculate_macd taMacd closes = { signal := "neutral", score := 0 }) ∧
    (∀ taBB closes, closes.length < TA_BB_PERIOD →
      calculate_bollinger_bands taBB closes = { signal := "neutral", score := 0 }) ∧
    (∀ closes : List ℚ, closes.length < TA_EMA_MEDIUM + 2 →
      calculate_ema_crossovers closes =
        { ema_short := none, ema_long := none, combined_score := 0 }) ∧
    (∀ candles : List Candle, candles.length < 10 →
      calculate_volume_analysis candles = { signal := "neutral", score := 0 }) := by
  refine ⟨?_, ?_, ?_, ?_, ?_⟩
  · intro taRsi closes h
    unfold calculate_rsi
    rw [if_pos h]
  · intro taMacd closes h
    unfold calculate_macd
    rw [if_pos h]
  · intro taBB closes h
    unfold calculate_bollinger_bands
    rw [if_pos h]
  · intro closes h
    have h1 : emaHorizon false TA_EMA_SHORT TA_EMA_MEDIUM closes = none := by
      unfold emaHorizon
      rw [if_pos h]
    have h2 : emaHorizon true TA_EMA_LONG TA_EMA_VERY_LONG closes = none := by
      unfold emaHorizon
      rw [if_pos (by simp only [TA_EMA_MEDIUM, TA_EMA_VERY_LONG] at h ⊢; omega)]
    unfold calculate_ema_crossovers
    rw [h1, h2]
    norm_num [pyRound_zero]
  · intro candles h
    unfold calculate_volume_analysis
    rw [if_pos h]

/-- Witness for C7 at one-element series. -/
theorem C7_insufficient_data_witness :
    calculate_rsi (fun _ => some 50) [1] =
      { value := none, signal := "neutral", score := none } ∧
    calculate_macd (fun _ => some (1, 1, 1, 1, 1)) [1] =
      { signal := "neutral", score := 0 } ∧
    calculate_bollinger_bands (fun _ => some (1, 1, 1, 1)) [1] =
      { signal := "neutral", score := 0 } ∧
    calculate_ema_crossovers [1] =
      { ema_short := none, ema_long := none, combined_score := 0 } ∧
    calculate_volume_analysis [{ close := 1, volume := 1 }] =
      { signal := "neutral", score := 0 } := by
  obtain ⟨h1, h2, h3, h4, h5⟩ := C7_insufficient_data
  exact ⟨h1 _ [1] (by simp [TA_RSI_PERIOD]),
    h2 _ [1] (by simp [TA_MACD_SLOW, TA_MACD_SIGNAL]),
    h3 _ [1] (by simp [TA_BB_PERIOD]),
    h4 [1] (by simp [TA_EMA_MEDIUM]),
    h5 _ (by simp)⟩

